import Mathlib

/-!
Shallow embedding of the company controller (`src/unnamed/part_000`) and the
protected route tables (`src/backend/routes/company.route.js`,
`src/backend/routes/application.route.js`) of the job-portal backend, together
with theorems settling the frozen claims about them.

Conventions of the embedding:
* A Mongoose document store is a `List Company`; each store primitive takes an
  `avail : Bool` flag so that an unavailable store ("store error") can be
  injected, and returns `Except JsError _` because JavaScript store calls can
  throw.
* A handler body (the code inside its `try` block) returns
  `Except JsError (Option Response)` together with the updated store and the
  list of store operations it performed; `.ok none` means the body ran to the
  end of the function without sending any response.  The surrounding
  `try/catch` is `runHandler`: every `catch` block in the source only does
  `console.log(error)` and sends nothing, which `runHandler` renders as the
  `Outcome.logged` constructor.
* JavaScript value truthiness is modelled where the source branches on it:
  `jsTruthy` for a possibly-absent string (`undefined`/`""` are falsy) and
  `arrayTruthy` for an array value (a JS array object is always truthy, even
  when empty).
* The source calls two things that do not exist: `Company.finOne` (a typo for
  `findOne`; reading the property yields `undefined` and calling it throws a
  TypeError) and the bare identifier `params` inside
  `Company.findByIdAndUpdate(req,params.id,...)` (throws a ReferenceError
  while the arguments are being evaluated).  Both are embedded as
  always-throwing expressions, exactly where the source evaluates them.
-/

/-- A JavaScript runtime failure that a handler can raise. -/
inductive JsError where
  | typeError (what : String)
  | referenceError (what : String)
  | storeError
deriving DecidableEq, Repr

/-- A company document: `{_id, name, userId}` as created by the controller.
`userId` is `Option` because `req.id` may be `undefined` in JavaScript. -/
structure Company where
  oid : String
  name : String
  userId : Option String
deriving DecidableEq, Repr

/-- The JSON body a handler sends with `res.status(s).json({...})`.  `message`
is absent from the 200 body of `getCompanyById`, hence `Option`. -/
structure Response where
  status : Nat
  message : Option String
  success : Bool
  company : Option Company
deriving DecidableEq, Repr

/-- What a handler invocation observably did at the transport layer. -/
inductive Outcome where
  | responded (r : Response)
  | noResponse
  | logged (e : JsError)
deriving DecidableEq, Repr

/-- A store operation actually performed against the document database,
recorded with the arguments the source passes. -/
inductive DbOp where
  | findOne (name : String)
  | create (name : String) (userId : Option String)
  | find (userId : Option String)
  | findById (oid : Option String)
  | findByIdAndUpdate
deriving DecidableEq, Repr

/-- The request body fields this controller can read, plus a client-supplied
`userId` identity field (a JSON body may carry one; no handler reads it). -/
structure Body where
  companyName : Option String
  name : Option String
  description : Option String
  website : Option String
  location : Option String
  userId : Option String
deriving DecidableEq, Repr

/-- An incoming request as the handlers see it: `id` is the field the
authentication gate injects (`req.id`), `paramsId` is `req.params.id`,
`cookieToken` is `req.cookies.token` read by the gate. -/
structure Request where
  id : Option String
  paramsId : Option String
  body : Body
  file : Option String
  cookieToken : Option String
deriving DecidableEq, Repr

/-- JS truthiness of a possibly-absent string: `undefined` and `""` are
falsy, any other string is truthy. -/
def jsTruthy : Option String → Bool
  | none => false
  | some s => !s.isEmpty

/-- JS truthiness of an array value: an array object is always truthy, even
when it is empty.  `Company.find` resolves to an array. -/
def arrayTruthy (_companies : List Company) : Bool := true

/-- The fresh ObjectId the store assigns to a newly created document. -/
def freshOid (store : List Company) : String := "oid" ++ toString store.length

/-- `Company.findOne({name})`: first document with that name, if any. -/
def Company.findOne (avail : Bool) (store : List Company) (name : String) :
    Except JsError (Option Company) :=
  if avail then Except.ok (store.find? (fun c => c.name == name))
  else Except.error JsError.storeError

/-- `Company.finOne({name: companyName})` as the source writes it: `finOne`
is not a method of the model, so the property read yields `undefined` and the
call throws a TypeError (the argument is evaluated but never used). -/
def Company.finOne (_name : String) : Except JsError (Option Company) :=
  Except.error (JsError.typeError "Company.finOne is not a function")

/-- `Company.create({name, userId})`: persist a new document. -/
def Company.create (avail : Bool) (store : List Company) (name : String)
    (userId : Option String) : Except JsError (Company × List Company) :=
  if avail then
    let c : Company := { oid := freshOid store, name := name, userId := userId }
    Except.ok (c, store ++ [c])
  else Except.error JsError.storeError

/-- `Company.find({userId})`: all documents whose `userId` equals the filter
value; resolves to an array. -/
def Company.findMany (avail : Bool) (store : List Company) (userId : Option String) :
    Except JsError (List Company) :=
  if avail then Except.ok (store.filter (fun c => c.userId == userId))
  else Except.error JsError.storeError

/-- `Company.findById(companyId)`: document with that `_id`, if any;
`findById(undefined)` resolves to no document. -/
def Company.findById (avail : Bool) (store : List Company) (oid : Option String) :
    Except JsError (Option Company) :=
  if avail then
    Except.ok (match oid with
      | none => none
      | some s => store.find? (fun c => c.oid == s))
  else Except.error JsError.storeError

/-- Evaluating the bare identifier `params` inside
`Company.findByIdAndUpdate(req,params.id,updatedData,{new: true})` (source
line 71): `params` is not declared anywhere in scope, so argument evaluation
throws a ReferenceError before the store call can run. -/
def paramsIdExpr : Except JsError String :=
  Except.error (JsError.referenceError "params is not defined")

/-- Result of running one handler: transport outcome, store after the call,
and the store operations performed. -/
abbrev HandlerResult := Outcome × List Company × List DbOp

/-- The `try/catch` wrapper every handler in this controller uses: a thrown
error is caught and `console.log`ged, and nothing is sent to the client; a
body that ends without `return res...` sends nothing either. -/
def runHandler (body : Except JsError (Option Response) × List Company × List DbOp) :
    HandlerResult :=
  match body with
  | (Except.error e, store, ops) => (Outcome.logged e, store, ops)
  | (Except.ok none, store, ops) => (Outcome.noResponse, store, ops)
  | (Except.ok (some r), store, ops) => (Outcome.responded r, store, ops)

/-- Source lines 18-26 of `registerCompany`: the creation branch.
`Company.create({name: companyName, userId: req.id})`, then the 201 response
carrying the created document.  (In the full handler this branch is
unreachable, because `Company.finOne` throws first; it is embedded on its own
so its binding of the owner can be stated.) -/
def registerCompanyCreateBranch (companyName : String) (req : Request)
    (store : List Company) (avail : Bool) :
    Except JsError (Option Response) × List Company × List DbOp :=
  match Company.create avail store companyName req.id with
  | Except.error e => (Except.error e, store, [])
  | Except.ok (c, store') =>
    (Except.ok (some { status := 201, message := some "Company registered successfully",
                       success := true, company := some c }),
     store', [DbOp.create companyName req.id])

/-- Body of `registerCompany` (source lines 3-26, inside the `try`). -/
def registerCompanyBody (req : Request) (store : List Company) (avail : Bool) :
    Except JsError (Option Response) × List Company × List DbOp :=
  let companyName := req.body.companyName
  if !jsTruthy companyName then
    (Except.ok (some { status := 400, message := some "Company name is required",
                       success := false, company := none }),
     store, [])
  else
    match Company.finOne (companyName.getD "") with
    | Except.error e => (Except.error e, store, [])
    | Except.ok (some _) =>
      (Except.ok (some { status := 400, message := some "You cann\x27t register same company",
                         success := false, company := none }),
       store, [DbOp.findOne (companyName.getD "")])
    | Except.ok none => registerCompanyCreateBranch (companyName.getD "") req store avail

/-- `registerCompany` (source lines 2-30). -/
def registerCompany (req : Request) (store : List Company) (avail : Bool) : HandlerResult :=
  runHandler (registerCompanyBody req store avail)

/-- Body of `getCompany` (source lines 32-41, inside the `try`): look up the
companies of the logged-in user; the `if(!companies)` test is on an array,
and after it there is no further statement, so no success response exists. -/
def getCompanyBody (req : Request) (store : List Company) (avail : Bool) :
    Except JsError (Option Response) × List Company × List DbOp :=
  let userId := req.id
  match Company.findMany avail store userId with
  | Except.error e => (Except.error e, store, [])
  | Except.ok companies =>
    if !arrayTruthy companies then
      (Except.ok (some { status := 404, message := some "Company not found",
                         success := false, company := none }),
       store, [DbOp.find userId])
    else
      (Except.ok none, store, [DbOp.find userId])

/-- `getCompany` (source lines 31-45). -/
def getCompany (req : Request) (store : List Company) (avail : Bool) : HandlerResult :=
  runHandler (getCompanyBody req store avail)

/-- Body of `getCompanyById` (source lines 47-59, inside the `try`). -/
def getCompanyByIdBody (req : Request) (store : List Company) (avail : Bool) :
    Except JsError (Option Response) × List Company × List DbOp :=
  let companyId := req.paramsId
  match Company.findById avail store companyId with
  | Except.error e => (Except.error e, store, [])
  | Except.ok none =>
    (Except.ok (some { status := 404, message := some "Company not found",
                       success := false, company := none }),
     store, [DbOp.findById companyId])
  | Except.ok (some c) =>
    (Except.ok (some { status := 200, message := none, success := true, company := some c }),
     store, [DbOp.findById companyId])

/-- `getCompanyById` (source lines 46-63). -/
def getCompanyById (req : Request) (store : List Company) (avail : Bool) : HandlerResult :=
  runHandler (getCompanyByIdBody req store avail)

/-- The response literal of `updateCompany`'s success branch (source lines
79-82): the status argument written there is 404, not a 2xx. -/
def updateCompanySuccessResponse : Response :=
  { status := 404, message := some "Company information updated",
    success := true, company := none }

/-- Body of `updateCompany` (source lines 66-82, inside the `try`): after
destructuring the body and reading `req.file`, the call
`Company.findByIdAndUpdate(req,params.id,updatedData,{new: true})` evaluates
the argument `params.id`, which throws a ReferenceError, so the store call
and both response branches below it are unreachable. -/
def updateCompanyBody (req : Request) (store : List Company) (_avail : Bool) :
    Except JsError (Option Response) × List Company × List DbOp :=
  let _updatedData := (req.body.name, req.body.description, req.body.website, req.body.location)
  let _file := req.file
  match paramsIdExpr with
  | Except.error e => (Except.error e, store, [])
  | Except.ok _ =>
    -- Unreachable: `paramsIdExpr` always throws.  The source here would run
    -- the update, answer 404 "Company not found" when no document matched,
    -- and otherwise send `updateCompanySuccessResponse` (also status 404).
    (Except.ok (some updateCompanySuccessResponse), store, [DbOp.findByIdAndUpdate])

/-- `updateCompany` (source lines 65-87). -/
def updateCompany (req : Request) (store : List Company) (avail : Bool) : HandlerResult :=
  runHandler (updateCompanyBody req store avail)

/-- Does an outcome carry a response sent to the client? -/
def respondedQ : Outcome → Bool
  | Outcome.responded _ => true
  | _ => false

/-! ## Authentication gate and protected route tables

The route tables below are from `src/backend/routes/company.route.js` (which
holds both the company router and the job router) and
`src/backend/routes/application.route.js`.  The middleware
`isAuthenticated.js` itself is not among the source files, so the gate is
modelled from the specification. -/

/-- Terminal state of the Authentication Gate for one request. -/
inductive GateResult where
  | rejected (reason : String)
  | verified (subjectId : String)
deriving DecidableEq, Repr

/-- Modelled from the spec: the Authentication Gate (`isAuthenticated`
middleware, not present under the source files).  It reads the token from the
designated cookie; if absent it rejects with reason "missing credential"; it
then calls the Session Token Codec verify (here an arbitrary function
`verify : String → Option String` returning the subject identifier on
success); on failure it rejects with the uniform reason "invalid credential";
on success it yields the verified subject identifier to attach to the request
identity context. -/
def isAuthenticated (verify : String → Option String) (req : Request) : GateResult :=
  match req.cookieToken with
  | none => GateResult.rejected "missing credential"
  | some t =>
    match verify t with
    | none => GateResult.rejected "invalid credential"
    | some s => GateResult.verified s

/-- The handlers the two route files import and register. -/
inductive Handler where
  | registerCompany | updateCompany | getCompanyById | getCompany
  | postjob | getAdminJobs | getJobById | getAllJobs
  | applyJob | getAppliedJobs | getApplicants | updateStatus
deriving DecidableEq, Repr

/-- One element of an express middleware chain: the gate or a handler. -/
inductive Step where
  | gate
  | handler (h : Handler)
deriving DecidableEq, Repr

/-- A row of a route table: path, HTTP method, middleware chain in order. -/
structure Route where
  path : String
  method : String
  steps : List Step
deriving DecidableEq, Repr

/-- `company.route.js` lines 6-9. -/
def companyRoutes : List Route :=
  [ { path := "/register", method := "post",
      steps := [Step.gate, Step.handler Handler.registerCompany] },
    { path := "/update/:id", method := "post",
      steps := [Step.gate, Step.handler Handler.updateCompany] },
    { path := "/get/:id", method := "post",
      steps := [Step.gate, Step.handler Handler.getCompanyById] },
    { path := "/get", method := "get",
      steps := [Step.gate, Step.handler Handler.getCompany] } ]

/-- The job router, the second router in `company.route.js`. -/
def jobRoutes : List Route :=
  [ { path := "/post", method := "post",
      steps := [Step.gate, Step.handler Handler.postjob] },
    { path := "/getAdminJobs", method := "put",
      steps := [Step.gate, Step.handler Handler.getAdminJobs] },
    { path := "/get/:id", method := "get",
      steps := [Step.gate, Step.handler Handler.getJobById] },
    { path := "/get", method := "get",
      steps := [Step.gate, Step.handler Handler.getAllJobs] } ]

/-- `application.route.js` lines 8-11. -/
def applicationRoutes : List Route :=
  [ { path := "/apply/:id", method := "get",
      steps := [Step.gate, Step.handler Handler.applyJob] },
    { path := "/get", method := "put",
      steps := [Step.gate, Step.handler Handler.getAppliedJobs] },
    { path := "/:id/applicants", method := "get",
      steps := [Step.gate, Step.handler Handler.getApplicants] },
    { path := "/status/:id/update", method := "post",
      steps := [Step.gate, Step.handler Handler.updateStatus] } ]

/-- Every protected route of the two route files. -/
def allProtectedRoutes : List Route :=
  companyRoutes ++ jobRoutes ++ applicationRoutes

/-- Express dispatch over a middleware chain: the gate either rejects (the
chain short-circuits, no handler runs) or attaches the verified subject
identifier to `req.id` and calls the next element; reaching a handler
terminates the chain with the handler that executes and the request it sees.
`none` means no handler executed. -/
def runChain (verify : String → Option String) :
    List Step → Request → Option (Request × Handler)
  | [], _ => none
  | Step.gate :: rest, req =>
    match isAuthenticated verify req with
    | GateResult.rejected _ => none
    | GateResult.verified s => runChain verify rest { req with id := some s }
  | Step.handler h :: _, req => some (req, h)

/-! ## Concrete sample values used by witnesses and counterexamples -/

/-- A request body with every field absent. -/
def emptyBody : Body :=
  { companyName := none, name := none, description := none,
    website := none, location := none, userId := none }

/-- An authenticated request whose body lacks `companyName`. -/
def reqNoName : Request :=
  { id := some "u1", paramsId := none, body := emptyBody,
    file := none, cookieToken := some "tok" }

/-- An authenticated request registering the company name "Acme". -/
def reqAcme : Request :=
  { id := some "u1", paramsId := none,
    body := { emptyBody with companyName := some "Acme" },
    file := none, cookieToken := some "tok" }

/-- An existing company document named "Acme" owned by user "u0". -/
def acmeCo : Company := { oid := "oid0", name := "Acme", userId := some "u0" }

/-- An authenticated request with route parameter `id = "oid0"`. -/
def reqOid0 : Request :=
  { id := some "u1", paramsId := some "oid0", body := emptyBody,
    file := none, cookieToken := none }

/-! ## Claims about `registerCompany` -/

/-- C4: a `registerCompany` request with the required field `companyName`
absent is answered with status 400, the field-level message
"Company name is required" and `success: false`; the store is unchanged and
no store operation (lookup or write) is performed. -/
theorem c4_missing_company_name_rejected (req : Request) (store : List Company)
    (avail : Bool) (h : req.body.companyName = none) :
    registerCompany req store avail =
      (Outcome.responded { status := 400, message := some "Company name is required",
                           success := false, company := none },
       store, []) := by
  simp [registerCompany, registerCompanyBody, jsTruthy, runHandler, h]

theorem c4_missing_company_name_rejected_witness :
    reqNoName.body.companyName = none ∧
    registerCompany reqNoName [acmeCo] true =
      (Outcome.responded { status := 400, message := some "Company name is required",
                           success := false, company := none },
       [acmeCo], []) :=
  ⟨rfl, c4_missing_company_name_rejected reqNoName [acmeCo] true rfl⟩

/-- C8: every `registerCompany` request that passes the `companyName`
presence check reaches `Company.finOne`, which throws a TypeError before any
document is created: the handler logs the error, sends no response, leaves
the store unchanged and performs no store operation, so the creation branch
(source lines 18-26) is unreachable. -/
theorem c8_creation_branch_unreachable (req : Request) (store : List Company)
    (avail : Bool) (h : jsTruthy req.body.companyName = true) :
    registerCompany req store avail =
      (Outcome.logged (JsError.typeError "Company.finOne is not a function"),
       store, []) := by
  simp [registerCompany, registerCompanyBody, Company.finOne, runHandler, h]

theorem c8_creation_branch_unreachable_witness :
    jsTruthy reqAcme.body.companyName = true ∧
    registerCompany reqAcme [] true =
      (Outcome.logged (JsError.typeError "Company.finOne is not a function"),
       [], []) :=
  ⟨rfl, c8_creation_branch_unreachable reqAcme [] true rfl⟩

/-- C1: a registration whose company name is already present in the store is
NOT rejected with a 4xx conflict response: the duplicate lookup
`Company.finOne` throws a TypeError, the handler only logs it, and no
response at all is sent (the store is indeed left unchanged). -/
theorem c1_duplicate_registration_not_answered :
    registerCompany reqAcme [acmeCo] true =
      (Outcome.logged (JsError.typeError "Company.finOne is not a function"),
       [acmeCo], []) ∧
    respondedQ (registerCompany reqAcme [acmeCo] true).1 = false :=
  ⟨rfl, rfl⟩

/-! ## Claims about `updateCompany`, `getCompany`, `getCompanyById` -/

/-- C9: every `updateCompany` request throws a ReferenceError while
evaluating `params.id` (source line 71), before `Company.findByIdAndUpdate`
can execute: the handler logs it, modifies nothing, performs no store
operation and sends no response; and the response literal of its success
branch carries status 404. -/
theorem c9_update_company_reference_error (req : Request) (store : List Company)
    (avail : Bool) :
    updateCompany req store avail =
      (Outcome.logged (JsError.referenceError "params is not defined"),
       store, []) ∧
    updateCompanySuccessResponse.status = 404 := by
  exact ⟨by simp [updateCompany, updateCompanyBody, paramsIdExpr, runHandler], rfl⟩

/-- C10: every `getCompany` request whose store lookup succeeds terminates
without sending any response (there is no success branch), and its 404 branch
is unreachable because `Company.find` resolves to an array and a JS array is
always truthy. -/
theorem c10_get_company_never_responds (req : Request) (store : List Company) :
    getCompany req store true =
      (Outcome.noResponse, store, [DbOp.find req.id]) ∧
    ∀ companies : List Company, arrayTruthy companies = true := by
  exact ⟨by simp [getCompany, getCompanyBody, Company.findMany, arrayTruthy, runHandler],
         fun _ => rfl⟩

/-- C7: a `getCompany` request by a subject owning no companies is NOT
answered with a 404: the lookup succeeds with the empty array, which is
truthy, so the 404 branch is skipped and the handler falls off the end
without sending any response. -/
theorem c7_owner_without_companies_gets_nothing :
    getCompany reqOid0 [acmeCo] true =
      (Outcome.noResponse, [acmeCo], [DbOp.find (some "u1")]) ∧
    respondedQ (getCompany reqOid0 [acmeCo] true).1 = false :=
  ⟨rfl, rfl⟩

/-- C5: a `getCompanyById` request whose lookup succeeds is answered 200 with
the found company and `success: true` when a company with the given id
exists, and 404 "Company not found" with `success: false` when none does. -/
theorem c5_get_company_by_id_found_or_404 (req : Request) (store : List Company) :
    (∀ c : Company, Company.findById true store req.paramsId = Except.ok (some c) →
      getCompanyById req store true =
        (Outcome.responded { status := 200, message := none, success := true,
                             company := some c },
         store, [DbOp.findById req.paramsId])) ∧
    (Company.findById true store req.paramsId = Except.ok none →
      getCompanyById req store true =
        (Outcome.responded { status := 404, message := some "Company not found",
                             success := false, company := none },
         store, [DbOp.findById req.paramsId])) := by
  constructor
  · intro c hc
    simp [getCompanyById, getCompanyByIdBody, hc, runHandler]
  · intro hc
    simp [getCompanyById, getCompanyByIdBody, hc, runHandler]

theorem c5_get_company_by_id_found_or_404_witness :
    (Company.findById true [acmeCo] reqOid0.paramsId = Except.ok (some acmeCo) ∧
     getCompanyById reqOid0 [acmeCo] true =
       (Outcome.responded { status := 200, message := none, success := true,
                            company := some acmeCo },
        [acmeCo], [DbOp.findById (some "oid0")])) ∧
    (Company.findById true [] reqOid0.paramsId = Except.ok none ∧
     getCompanyById reqOid0 [] true =
       (Outcome.responded { status := 404, message := some "Company not found",
                            success := false, company := none },
        [], [DbOp.findById (some "oid0")])) :=
  ⟨⟨rfl, (c5_get_company_by_id_found_or_404 reqOid0 [acmeCo]).1 acmeCo rfl⟩,
   ⟨rfl, (c5_get_company_by_id_found_or_404 reqOid0 []).2 rfl⟩⟩

/-- C3 (counterexample): a store failure inside `getCompanyById` is NOT
converted into a 5xx (or any) response: the handler catches it, logs it, and
sends nothing to the client. -/
theorem c3_store_failure_yields_no_response :
    getCompanyById reqOid0 [acmeCo] false =
      (Outcome.logged JsError.storeError, [acmeCo], []) ∧
    respondedQ (getCompanyById reqOid0 [acmeCo] false).1 = false :=
  ⟨rfl, rfl⟩

/-- C3 (amended): every failure raised inside these handlers — store
unavailability in `getCompanyById` and `getCompany`, the ReferenceError in
`updateCompany`, the TypeError in `registerCompany` — is caught at the
handler boundary and logged server-side; nothing propagates uncaught to the
transport layer, but no response (in particular no 5xx) is sent for it, and
no internal detail reaches the client. -/
theorem c3_failures_caught_logged_unanswered (req : Request) (store : List Company) :
    getCompanyById req store false =
      (Outcome.logged JsError.storeError, store, []) ∧
    getCompany req store false =
      (Outcome.logged JsError.storeError, store, []) ∧
    (∀ avail : Bool, updateCompany req store avail =
      (Outcome.logged (JsError.referenceError "params is not defined"), store, [])) ∧
    (jsTruthy req.body.companyName = true → ∀ avail : Bool,
      registerCompany req store avail =
        (Outcome.logged (JsError.typeError "Company.finOne is not a function"),
         store, [])) := by
  refine ⟨?_, ?_, ?_, ?_⟩
  · simp [getCompanyById, getCompanyByIdBody, Company.findById, runHandler]
  · simp [getCompany, getCompanyBody, Company.findMany, runHandler]
  · intro avail
    simp [updateCompany, updateCompanyBody, paramsIdExpr, runHandler]
  · intro h avail
    simp [registerCompany, registerCompanyBody, Company.finOne, runHandler, h]

theorem c3_failures_caught_logged_unanswered_witness :
    getCompanyById reqAcme [acmeCo] false =
      (Outcome.logged JsError.storeError, [acmeCo], []) ∧
    jsTruthy reqAcme.body.companyName = true ∧
    registerCompany reqAcme [acmeCo] false =
      (Outcome.logged (JsError.typeError "Company.finOne is not a function"),
       [acmeCo], []) :=
  ⟨(c3_failures_caught_logged_unanswered reqAcme [acmeCo]).1, rfl,
   (c3_failures_caught_logged_unanswered reqAcme [acmeCo]).2.2.2 rfl false⟩

/-- C6: identity is taken from the gate-injected `req.id` only.
(1) `registerCompany` gives identical results on two requests that differ
only in the client-supplied `userId` body field; (2) `getCompany` gives
identical results on two requests that differ in the whole body; (3) the
store query of `getCompany` is filtered exactly by the gate-injected
`req.id`; (4) the creation branch of `registerCompany` persists the new
company with owner `userId = req.id`. -/
theorem c6_identity_bound_to_gate_subject (req : Request) (store : List Company)
    (avail : Bool) :
    (∀ u : Option String,
      registerCompany { req with body := { req.body with userId := u } } store avail =
        registerCompany req store avail) ∧
    (∀ b : Body,
      getCompany { req with body := b } store avail = getCompany req store avail) ∧
    (getCompany req store true).2.2 = [DbOp.find req.id] ∧
    (∀ name : String,
      registerCompanyCreateBranch name req store true =
        (Except.ok (some { status := 201,
                           message := some "Company registered successfully",
                           success := true,
                           company := some { oid := freshOid store, name := name,
                                             userId := req.id } }),
         store ++ [{ oid := freshOid store, name := name, userId := req.id }],
         [DbOp.create name req.id])) := by
  refine ⟨?_, ?_, ?_, ?_⟩
  · intro u
    simp [registerCompany, registerCompanyBody, registerCompanyCreateBranch]
  · intro b
    simp [getCompany, getCompanyBody]
  · simp [getCompany, getCompanyBody, Company.findMany, arrayTruthy, runHandler]
  · intro name
    simp [registerCompanyCreateBranch, Company.create]

/-! ## Claim about the protected route tables -/

/-- Helper: if dispatching the chain `[gate, handler hd]` executes a handler,
the gate verified the request and the executed handler saw `req.id` set to
the verified subject. -/
theorem runChain_gate_first (verify : String → Option String) (hd : Handler)
    (req req' : Request) (h : Handler)
    (hrun : runChain verify [Step.gate, Step.handler hd] req = some (req', h)) :
    ∃ s : String, isAuthenticated verify req = GateResult.verified s ∧
      req'.id = some s := by
  cases hAuth : isAuthenticated verify req with
  | rejected reason =>
    simp [runChain, hAuth] at hrun
  | verified s =>
    refine ⟨s, rfl, ?_⟩
    simp [runChain, hAuth] at hrun
    rw [← hrun.1]

/-- C2: every route of the company router, the job router and the
application router is wrapped by the authentication gate (the chain is
exactly gate-then-handler), and whenever dispatch of such a route executes
its handler, the gate verified the request first and the handler ran with
`req.id` populated with the verified subject identifier. -/
theorem c2_all_protected_routes_gated :
    (∀ r ∈ allProtectedRoutes, ∃ h : Handler,
      r.steps = [Step.gate, Step.handler h]) ∧
    (∀ (verify : String → Option String), ∀ r ∈ allProtectedRoutes,
      ∀ (req req' : Request) (h : Handler),
        runChain verify r.steps req = some (req', h) →
        ∃ s : String, isAuthenticated verify req = GateResult.verified s ∧
          req'.id = some s) := by
  constructor
  · intro r hr
    fin_cases hr <;> exact ⟨_, rfl⟩
  · intro verify r hr req req' h hrun
    have hsteps : ∃ hd : Handler, r.steps = [Step.gate, Step.handler hd] := by
      fin_cases hr <;> exact ⟨_, rfl⟩
    obtain ⟨hd, hs⟩ := hsteps
    rw [hs] at hrun
    exact runChain_gate_first verify hd req req' h hrun

/-- The codec used by the witness: every token verifies to itself. -/
def verifyAny : String → Option String := fun t => some t

/-- A request arriving with cookie token "subj" and no identity yet. -/
def reqTok : Request :=
  { id := none, paramsId := none, body := emptyBody,
    file := none, cookieToken := some "subj" }

/-- The `/register` row of the company route table. -/
def registerRouteRow : Route :=
  { path := "/register", method := "post",
    steps := [Step.gate, Step.handler Handler.registerCompany] }

theorem c2_all_protected_routes_gated_witness :
    (∃ h : Handler, registerRouteRow.steps = [Step.gate, Step.handler h]) ∧
    (∃ s : String, isAuthenticated verifyAny reqTok = GateResult.verified s ∧
      ({ reqTok with id := some "subj" } : Request).id = some s) :=
  ⟨c2_all_protected_routes_gated.1 registerRouteRow (by decide),
   c2_all_protected_routes_gated.2 verifyAny registerRouteRow (by decide)
     reqTok { reqTok with id := some "subj" } Handler.registerCompany rfl⟩
